import Mathlib

/-!
A shallow embedding of the brother-ql-rs printer driver (src/utils.rs,
src/printer.rs, src/printer/job.rs, src/printer/status.rs), together with
theorems about its raster encoder, job serializer and print state machine.

Machine integers are modelled as `Nat` (with explicit `% 2 ^ w` where the
source performs wrapping conversions) and `Int` where the source computes
with signed `isize`; fallible Rust code returns `Except`, and a Rust
`panic!` / `.expect(..)` is the distinguished `Outcome.panic` value.

The static label catalogue `label_data` lives in `printer/constants.rs`,
which is not among the given sources; following the specification (section
4.4) it is a static partial lookup from (width, optional length) to a
`Label`, so every definition that needs it takes the table as an explicit
`Catalogue` argument.
-/

namespace BrotherQL

/-- A bitmap, as the `image` crate's `ImageBuffer`: a width, a height and a
total pixel function.  The code paths proved below never read outside the
bounds (claim C10 makes this precise), so totality of `pix` is harmless. -/
structure Img (α : Type) where
  width : Nat
  height : Nat
  pix : Nat → Nat → α

/-- `GrayImage` from the `image` crate: 8-bit luma pixels, as `Nat` values
in 0–255. -/
abbrev GrayImage := Img Nat

/-- The byte index computed by `rasterize_image_to_ql_tiff` (utils.rs:21):
`((719 / 8) - (col as isize / 8)) as usize`, with the source's signed
arithmetic made explicit as `Int`. -/
def line_byte (col : Nat) : Int := 719 / 8 - (col : Int) / 8

/-- One execution of the loop body of `rasterize_image_to_ql_tiff`
(utils.rs:21–28) for column `col` of row `row`: compute the byte index and
bit index, read the pixel, and OR the bit into the line.  `line.set` and
`line.getD` model the Rust index expression `line[line_byte]` (claim C10
shows the index is always in bounds, so the partiality of `set` is never
exercised). -/
def raster_line_set (image : GrayImage) (row col : Nat) (line : List Nat) : List Nat :=
  let lb := (line_byte col).toNat
  let line_bit_index := col % 8
  let luma_pixel := image.pix col row
  let value : Nat := if luma_pixel > 0xFF / 2 then 0 else 1
  line.set lb (line.getD lb 0 ||| value <<< line_bit_index)

/-- The inner column loop of `rasterize_image_to_ql_tiff` (utils.rs:20–29):
`for col in 0..720 { ... if col >= width { break; } ... }`.  `remaining`
counts the iterations the bounded `for` loop still has (720 at entry) and
`col` is the loop variable; the `break` on `col >= width` is the first
branch. -/
def raster_cols (image : GrayImage) (row : Nat) : Nat → Nat → List Nat → List Nat
  | 0, _, line => line
  | remaining + 1, col, line =>
    if col ≥ image.width then line
    else raster_cols image row remaining (col + 1) (raster_line_set image row col line)

/-- The outer row loop of `rasterize_image_to_ql_tiff` (utils.rs:14–31):
`for row in 0..height { ... lines.push(line); }`, producing the rows in
order starting at `row`; `remaining` counts the rows still to produce
(`height` at entry).  Each row starts from the all-zero 90-byte line
(`let mut line = [0; 90]`). -/
def rasterize_rows (image : GrayImage) (row : Nat) : Nat → List (List Nat)
  | 0 => []
  | remaining + 1 =>
    raster_cols image row 720 0 (List.replicate 90 0) :: rasterize_rows image (row + 1) remaining

/-- `rasterize_image_to_ql_tiff` (utils.rs:9–33): convert a grayscale image
into one 90-byte raster line per row. -/
def rasterize_image_to_ql_tiff (image : GrayImage) : List (List Nat) :=
  rasterize_rows image 0 image.height

/-- The bit of an encoded raster line that carries column `col`: bit
`col % 8` of the byte at index `(719/8 − col/8)`, exactly the position the
source writes to. -/
def lineBit (line : List Nat) (col : Nat) : Bool :=
  (line.getD (line_byte col).toNat 0).testBit (col % 8)

/-! Helper lemmas about `List.set`, `List.getD` and `List.replicate`. -/

theorem getD_set_self (l : List Nat) (i a : Nat) (h : i < l.length) :
    (l.set i a).getD i 0 = a := by
  simp [List.getD, List.getElem?_set_eq_of_lt a h]

theorem getD_set_other (l : List Nat) (i j a : Nat) (h : i ≠ j) :
    (l.set i a).getD j 0 = l.getD j 0 := by
  simp [List.getD, List.getElem?_set_ne h]

theorem getD_replicate_zero : ∀ (n i : Nat), (List.replicate n (0 : Nat)).getD i 0 = 0
  | 0, _ => by simp [List.getD]
  | n + 1, 0 => by simp [List.replicate, List.getD]
  | n + 1, i + 1 => by
    simp only [List.replicate, List.getD, List.getElem?_cons_succ]
    exact getD_replicate_zero n i

theorem line_byte_toNat (col : Nat) (h : col < 720) :
    (line_byte col).toNat = 89 - col / 8 := by
  unfold line_byte; omega

theorem line_byte_nonneg (col : Nat) (h : col < 720) : 0 ≤ line_byte col := by
  unfold line_byte; omega

theorem raster_line_set_length (image : GrayImage) (row col : Nat) (line : List Nat) :
    (raster_line_set image row col line).length = line.length := by
  simp [raster_line_set]

theorem raster_cols_length (image : GrayImage) (row : Nat) :
    ∀ (r col : Nat) (line : List Nat), (raster_cols image row r col line).length = line.length
  | 0, _, _ => rfl
  | r + 1, col, line => by
    unfold raster_cols
    split
    · rfl
    · rw [raster_cols_length image row r (col + 1), raster_line_set_length]

/-- Effect on a single tracked bit of one loop-body execution: the bit for
column `c` is set afterwards iff it was set before, or `c` is exactly the
column just processed and its pixel is at most 127. -/
theorem lineBit_raster_line_set (image : GrayImage) (row col c : Nat) (line : List Nat)
    (hlen : line.length = 90) (hcol : col < 720) (hc : c < 720) :
    (lineBit (raster_line_set image row col line) c = true
      ↔ (lineBit line c = true ∨ (c = col ∧ image.pix col row ≤ 127))) := by
  have hdc : c / 8 ≤ 89 := by omega
  have hdcol : col / 8 ≤ 89 := by omega
  simp only [lineBit, raster_line_set]
  rw [line_byte_toNat c hc, line_byte_toNat col hcol]
  by_cases hb : (89 - c / 8) = (89 - col / 8)
  · have hdiv : c / 8 = col / 8 := by omega
    rw [hb, getD_set_self _ _ _ (by omega)]
    rw [Nat.testBit_lor]
    by_cases hpix : image.pix col row > 0xFF / 2
    · have h0 : (if image.pix col row > 0xFF / 2 then (0 : Nat) else 1) = 0 := if_pos hpix
      rw [h0, Nat.zero_shiftLeft, Nat.zero_testBit, Bool.or_false]
      constructor
      · exact Or.inl
      · rintro (h | ⟨rfl, hle⟩)
        · exact h
        · omega
    · have h1 : (if image.pix col row > 0xFF / 2 then (0 : Nat) else 1) = 1 := if_neg hpix
      rw [h1, Nat.one_shiftLeft]
      by_cases hp : col % 8 = c % 8
      · have hceq : c = col := by omega
        rw [hp, Nat.testBit_two_pow_self, Bool.or_true]
        simp only [true_iff]
        exact Or.inr ⟨hceq, by omega⟩
      · rw [Nat.testBit_two_pow_of_ne hp, Bool.or_false]
        have hne : c ≠ col := fun h => hp (by rw [h])
        constructor
        · exact Or.inl
        · rintro (h | ⟨rfl, _⟩)
          · exact h
          · exact absurd rfl hne
  · rw [getD_set_other _ _ _ _ (fun h => hb h.symm)]
    have hne : c ≠ col := fun h => hb (by rw [h])
    constructor
    · exact Or.inl
    · rintro (h | ⟨rfl, _⟩)
      · exact h
      · exact absurd rfl hne

/-- Characterization of the bits accumulated by the column loop: starting
the loop at column `col0` with `remaining` iterations left, the bit for
column `c` ends up set iff it was set in the incoming line, or `c` is one
of the columns the loop actually processes (`col0 ≤ c`, within the
remaining iteration budget, and left of the image width) and its pixel has
luma at most 127. -/
theorem raster_cols_bit (image : GrayImage) (row : Nat) :
    ∀ (r col0 : Nat) (line : List Nat), line.length = 90 → col0 + r ≤ 720 →
    ∀ c, c < 720 →
    (lineBit (raster_cols image row r col0 line) c = true
      ↔ (lineBit line c = true ∨
          (col0 ≤ c ∧ c < col0 + r ∧ c < image.width ∧ image.pix c row ≤ 127)))
  | 0, col0, line, _, _, c, _ => by
    constructor
    · exact Or.inl
    · rintro (h | ⟨h1, h2, _, _⟩)
      · exact h
      · omega
  | r + 1, col0, line, hlen, hr, c, hc => by
    unfold raster_cols
    by_cases hw : col0 ≥ image.width
    · rw [if_pos hw]
      constructor
      · exact Or.inl
      · rintro (h | ⟨h1, _, h3, _⟩)
        · exact h
        · omega
    · rw [if_neg hw]
      rw [raster_cols_bit image row r (col0 + 1) _
        (by rw [raster_line_set_length]; exact hlen) (by omega) c hc]
      rw [lineBit_raster_line_set image row col0 c line hlen (by omega) hc]
      constructor
      · rintro ((h | ⟨rfl, hp⟩) | ⟨h1, h2, h3, h4⟩)
        · exact Or.inl h
        · exact Or.inr ⟨Nat.le_refl _, by omega, by omega, hp⟩
        · exact Or.inr ⟨by omega, by omega, h3, h4⟩
      · rintro (h | ⟨h1, h2, h3, h4⟩)
        · exact Or.inl (Or.inl h)
        · by_cases hcc : c = col0
          · subst hcc
            exact Or.inl (Or.inr ⟨rfl, h4⟩)
          · exact Or.inr ⟨by omega, by omega, h3, h4⟩

theorem rasterize_rows_getD (image : GrayImage) :
    ∀ (k row i : Nat), i < k →
    (rasterize_rows image row k).getD i [] =
      raster_cols image (row + i) 720 0 (List.replicate 90 0)
  | 0, _, _, h => absurd h (Nat.not_lt_zero _)
  | k + 1, row, 0, _ => by simp [rasterize_rows, List.getD]
  | k + 1, row, i + 1, h => by
    show (rasterize_rows image (row + 1) k).getD i [] = _
    rw [rasterize_rows_getD image k (row + 1) i (by omega)]
    congr 1
    omega

theorem rasterize_rows_length (image : GrayImage) :
    ∀ (k row : Nat), (rasterize_rows image row k).length = k
  | 0, _ => rfl
  | k + 1, row => by
    simp only [rasterize_rows, List.length_cons]
    rw [rasterize_rows_length image k (row + 1)]

theorem rasterize_rows_mem_length (image : GrayImage) :
    ∀ (k row : Nat), ∀ l ∈ rasterize_rows image row k, l.length = 90
  | 0, _ => by
    intro l hl
    exact absurd hl (by simp [rasterize_rows])
  | k + 1, row => by
    intro l hl
    rcases List.mem_cons.mp hl with hl | hl
    · subst hl
      rw [raster_cols_length, List.length_replicate]
    · exact rasterize_rows_mem_length image k (row + 1) l hl

/-- Bits of a full encoded row: for `c < 720`, the bit for column `c` of
row `r` is set iff `c` is inside the image and the pixel's luma is at most
127. -/
theorem rasterize_bit (image : GrayImage) (r c : Nat) (hr : r < image.height) (hc : c < 720) :
    (lineBit ((rasterize_image_to_ql_tiff image).getD r []) c = true
      ↔ (c < image.width ∧ image.pix c r ≤ 127)) := by
  unfold rasterize_image_to_ql_tiff
  rw [rasterize_rows_getD image image.height 0 r hr]
  rw [raster_cols_bit image (0 + r) 720 0 (List.replicate 90 0)
    (List.length_replicate 90 0) (by omega) c hc]
  have hz : lineBit (List.replicate 90 0) c = false := by
    unfold lineBit
    rw [getD_replicate_zero, Nat.zero_testBit]
  rw [hz]
  have hzr : (0 : Nat) + r = r := by omega
  rw [hzr]
  constructor
  · rintro (h | ⟨_, _, h3, h4⟩)
    · exact absurd h (by simp)
    · exact ⟨h3, h4⟩
  · rintro ⟨h1, h2⟩
    exact Or.inr ⟨Nat.zero_le _, by omega, h1, h2⟩

/-- C1.  For every grayscale image and every row `r`, the raster line
emitted for row `r` has, for each column `c < min(width, 720)`, the bit at
byte `89 − c/8`, bit position `c mod 8`, set iff the pixel at `(c, r)` has
luma ≤ 127; and for a row whose only dark pixel (luma ≤ 127) sits at column
`c < min(width, 720)`, the line contains exactly one set bit, at byte
`89 − c/8`, position `c mod 8`. -/
theorem C1_raster_bit_placement :
    (∀ (image : GrayImage) (r c : Nat), r < image.height → c < min image.width 720 →
      (lineBit ((rasterize_image_to_ql_tiff image).getD r []) c = true
        ↔ image.pix c r ≤ 127))
  ∧ (∀ (image : GrayImage) (r c : Nat), r < image.height → c < image.width → c < 720 →
      image.pix c r ≤ 127 → (∀ x, x ≠ c → ¬ image.pix x r ≤ 127) →
      ∀ b p : Nat, b < 90 → p < 8 →
        ((((rasterize_image_to_ql_tiff image).getD r []).getD b 0).testBit p = true
          ↔ (b = 89 - c / 8 ∧ p = c % 8))) := by
  constructor
  · intro image r c hr hc
    rw [rasterize_bit image r c hr (by omega)]
    constructor
    · rintro ⟨_, h⟩
      exact h
    · intro h
      exact ⟨by omega, h⟩
  · intro image r c hr hcw hc720 hdark honly b p hb hp
    -- the unique column whose bit lands at byte `b`, position `p`
    set x := 8 * (89 - b) + p with hxdef
    have hx720 : x < 720 := by omega
    have hxb : (line_byte x).toNat = b := by rw [line_byte_toNat x hx720]; omega
    have hxp : x % 8 = p := by omega
    have hread : (((rasterize_image_to_ql_tiff image).getD r []).getD b 0).testBit p
        = lineBit ((rasterize_image_to_ql_tiff image).getD r []) x := by
      unfold lineBit
      rw [hxb, hxp]
    rw [hread, rasterize_bit image r x hr hx720]
    constructor
    · rintro ⟨hxw, hxdark⟩
      have hxc : x = c := by
        by_contra hne
        exact honly x hne hxdark
      subst hxc
      omega
    · rintro ⟨rfl, rfl⟩
      have hxc : x = c := by omega
      rw [hxc]
      exact ⟨hcw, hdark⟩

/-- Single-dark-pixel image used to instantiate C1: width 10, height 1,
black only at column 3. -/
def imgW : GrayImage := ⟨10, 1, fun x _ => if x = 3 then 0 else 255⟩

/-- Witness for C1 at the image `imgW` (dark pixel at column 3 of row 0):
the hypotheses hold and the bit for column 3 is set, and the only set bit
of byte 89 among positions 3 and 4 is position 3. -/
theorem C1_raster_bit_placement_witness :
    (0 < imgW.height ∧ 3 < min imgW.width 720 ∧ imgW.pix 3 0 ≤ 127)
  ∧ lineBit ((rasterize_image_to_ql_tiff imgW).getD 0 []) 3 = true
  ∧ ((((rasterize_image_to_ql_tiff imgW).getD 0 []).getD 89 0).testBit 3 = true
      ∧ (((rasterize_image_to_ql_tiff imgW).getD 0 []).getD 89 0).testBit 4 = false) := by
  refine ⟨⟨by decide, by decide, by decide⟩, ?_, ?_, ?_⟩
  · exact (C1_raster_bit_placement.1 imgW 0 3 (by decide) (by decide)).mpr (by decide)
  · refine (C1_raster_bit_placement.2 imgW 0 3 (by decide) (by decide) (by decide) (by decide)
      ?_ 89 3 (by decide) (by decide)).mpr (by decide)
    intro x hx
    simp only [imgW]
    rw [if_neg hx]
    decide
  · have h := C1_raster_bit_placement.2 imgW 0 3 (by decide) (by decide) (by decide) (by decide)
      (by intro x hx; simp only [imgW]; rw [if_neg hx]; decide) 89 4 (by decide) (by decide)
    by_contra hcon
    have := h.mp (by
      cases hbit : (((rasterize_image_to_ql_tiff imgW).getD 0 []).getD 89 0).testBit 4
      · exact absurd hbit hcon
      · rfl)
    omega

theorem raster_cols_agree (image1 image2 : GrayImage) (row : Nat)
    (hw : image1.width = image2.width)
    (hpix : ∀ c, c < image1.width → c < 720 → image1.pix c row = image2.pix c row) :
    ∀ (r col : Nat) (line : List Nat), col + r ≤ 720 →
    raster_cols image1 row r col line = raster_cols image2 row r col line
  | 0, _, _, _ => rfl
  | r + 1, col, line, hr => by
    unfold raster_cols
    rw [← hw]
    by_cases hcw : col ≥ image1.width
    · rw [if_pos hcw, if_pos hcw]
    · rw [if_neg hcw, if_neg hcw]
      have hset : raster_line_set image1 row col line = raster_line_set image2 row col line := by
        unfold raster_line_set
        rw [hpix col (by omega) (by omega)]
      rw [hset]
      exact raster_cols_agree image1 image2 row hw hpix r (col + 1) _ (by omega)

theorem rasterize_rows_agree (image1 image2 : GrayImage)
    (hw : image1.width = image2.width)
    (hpix : ∀ c r, c < image1.width → c < 720 → image1.pix c r = image2.pix c r) :
    ∀ (k row : Nat), rasterize_rows image1 row k = rasterize_rows image2 row k
  | 0, _ => rfl
  | k + 1, row => by
    unfold rasterize_rows
    rw [raster_cols_agree image1 image2 row hw (fun c h1 h2 => hpix c row h1 h2) 720 0 _ (by omega)]
    rw [rasterize_rows_agree image1 image2 hw hpix k (row + 1)]

/-- C10.  The rasterizer is total for every grayscale image: the signed
byte index `719/8 − c/8` is non-negative and, cast back to `usize`, within
the 90-byte line for every iterated column `c < 720`; the output has one
90-byte line per image row; and the output depends only on the pixels at
columns `c < min(width, 720)` — pixels at or beyond the width, or at column
720 and beyond, never influence any emitted line. -/
theorem C10_rasterizer_total :
    (∀ col, col < 720 → 0 ≤ line_byte col ∧ (line_byte col).toNat < 90)
  ∧ (∀ image : GrayImage, (rasterize_image_to_ql_tiff image).length = image.height
      ∧ ∀ l ∈ rasterize_image_to_ql_tiff image, l.length = 90)
  ∧ (∀ image1 image2 : GrayImage, image1.width = image2.width →
      image1.height = image2.height →
      (∀ c r, c < image1.width → c < 720 → image1.pix c r = image2.pix c r) →
      rasterize_image_to_ql_tiff image1 = rasterize_image_to_ql_tiff image2) := by
  refine ⟨?_, ?_, ?_⟩
  · intro col hcol
    refine ⟨line_byte_nonneg col hcol, ?_⟩
    rw [line_byte_toNat col hcol]
    omega
  · intro image
    exact ⟨rasterize_rows_length image image.height 0,
      rasterize_rows_mem_length image image.height 0⟩
  · intro image1 image2 hw hh hpix
    unfold rasterize_image_to_ql_tiff
    rw [← hh]
    exact rasterize_rows_agree image1 image2 hw hpix image1.height 0

/-- Witness for C10 at concrete inputs: column 700 is mapped inside the
line, `imgW` yields one 90-byte line, and changing `imgW`'s pixels outside
its width leaves the output unchanged. -/
theorem C10_rasterizer_total_witness :
    (700 < 720 ∧ 0 ≤ line_byte 700 ∧ (line_byte 700).toNat < 90)
  ∧ (rasterize_image_to_ql_tiff imgW).length = imgW.height
  ∧ rasterize_image_to_ql_tiff imgW =
      rasterize_image_to_ql_tiff ⟨10, 1, fun x _ => if x = 3 then 0 else if x < 10 then 255 else 7⟩ := by
  refine ⟨⟨by decide, ?_⟩, ?_, ?_⟩
  · exact C10_rasterizer_total.1 700 (by decide)
  · exact (C10_rasterizer_total.2.1 imgW).1
  · refine C10_rasterizer_total.2.2 imgW _ (by decide) (by decide) ?_
    intro c r hc _
    simp only [imgW]
    have h10 : c < 10 := hc
    by_cases h3 : c = 3
    · rw [if_pos h3, if_pos h3]
    · rw [if_neg h3, if_neg h3, if_pos h10]

/-! The dithering step (utils.rs:35–71).  The two-entry black-and-white
`ColorMap` is translated from the source; the Floyd–Steinberg error
diffusion itself is `image::imageops::dither` from the external `image`
crate and is modelled from the spec below. -/

namespace BlackAndWhite

/-- `BlackAndWhite::index_of` (utils.rs:40–46): palette index of a luma
value, with the source's threshold `color < u8::MAX / 2`. -/
def index_of (color : Nat) : Nat := if color < 255 / 2 then 0 else 1

/-- `BlackAndWhite::map_color` (utils.rs:48–54): quantize a luma value to
the palette, with the source's threshold `color < u8::MAX / 2`. -/
def map_color (color : Nat) : Nat := if color < 255 / 2 then 0 else 255

/-- `BlackAndWhite::lookup` (utils.rs:56–62). -/
def lookup (index : Nat) : Option Nat :=
  match index with
  | 0 => some 0
  | 1 => some 255
  | _ => none

end BlackAndWhite

/-- Clamp a signed intermediate value back into the `u8` range, as storing
into an 8-bit pixel does. -/
def clamp_u8 (v : Int) : Nat := (max 0 (min v 255)).toNat

/-- Modelled from the spec: the body of `image::imageops::dither` (external
`image` crate, not among the sources), described in §4.5 step 3 as
"Floyd–Steinberg-style error diffusion against a two-entry palette
{0x00, 0xFF}".  Pixels are visited in row-major order (`idx` enumerates
them, `fuel = width·height` at entry); each pixel plus its accumulated
error is quantized with the source's `BlackAndWhite::map_color`, and the
quantization error is diffused with the Floyd–Steinberg weights 7/16 (right),
3/16 (below left), 5/16 (below), 1/16 (below right). -/
def fs_diffuse (w : Nat) (orig : Nat → Nat → Nat) :
    Nat → Nat → (Nat → Nat → Int) → (Nat → Nat → Nat) → (Nat → Nat → Nat)
  | 0, _, _, out => out
  | fuel + 1, idx, err, out =>
    let x := idx % w
    let y := idx / w
    let old : Int := (orig x y : Int) + err x y
    let new : Nat := BlackAndWhite.map_color (clamp_u8 old)
    let e : Int := old - (new : Int)
    let err2 : Nat → Nat → Int := fun a b =>
      (if a = x + 1 ∧ b = y then e * 7 / 16 else 0) +
      (if 0 < x ∧ a = x - 1 ∧ b = y + 1 then e * 3 / 16 else 0) +
      (if a = x ∧ b = y + 1 then e * 5 / 16 else 0) +
      (if a = x + 1 ∧ b = y + 1 then e * 1 / 16 else 0) + err a b
    let out2 : Nat → Nat → Nat := fun a b => if a = x ∧ b = y then new else out a b
    fs_diffuse w orig fuel (idx + 1) err2 out2

/-- `dither_luma8_image` (utils.rs:35–71): dither a luma image in place
against the black-and-white palette.  The diffusion loop is modelled from
the spec (see `fs_diffuse`); the quantization map is the source's
`BlackAndWhite` colour map. -/
def dither_luma8_image (image : GrayImage) : GrayImage :=
  { image with
    pix := fs_diffuse image.width image.pix (image.width * image.height) 0
      (fun _ _ => 0) image.pix }

/-- C7 counterexample: on the one-pixel image of luma 127 (no accumulated
error on the first pixel) the dithering step quantizes to white `0xFF`,
although 127 < 128 — so "quantized to black exactly when luma < 128" is
false at luma 127. -/
theorem C7_threshold_cex :
    (dither_luma8_image ⟨1, 1, fun _ _ => 127⟩).pix 0 0 = 255 ∧ 127 < 128 := by
  constructor
  · rfl
  · decide

/-- C7 as amended: the dithering step quantizes a pixel (after accumulated
error, clamped to the `u8` range) to black `0x00` exactly when the value is
strictly less than 127 (`u8::MAX / 2` in integer division), and to white
`0xFF` otherwise — on a one-pixel image the dithered pixel is black iff the
luma is below 127, and `map_color` sends a value to 0 iff it is below 127. -/
theorem C7_threshold_amended (v : Nat) :
    (dither_luma8_image ⟨1, 1, fun _ _ => v⟩).pix 0 0 = (if v < 127 then 0 else 255)
  ∧ (BlackAndWhite.map_color v = 0 ↔ v < 127) := by
  constructor
  · have step : (dither_luma8_image ⟨1, 1, fun _ _ => v⟩).pix 0 0
        = BlackAndWhite.map_color (clamp_u8 ((v : Int) + 0)) := by
      dsimp only [dither_luma8_image]
      rfl
    rw [step]
    unfold BlackAndWhite.map_color clamp_u8
    split_ifs <;> omega
  · unfold BlackAndWhite.map_color
    by_cases h : v < 255 / 2
    · rw [if_pos h]
      exact ⟨fun _ => by omega, fun _ => rfl⟩
    · rw [if_neg h]
      constructor
      · intro hcon
        exact absurd hcon (by decide)
      · intro hv
        omega

/-- `Orientation` (printer.rs:86–89). -/
inductive Orientation
  | Normal
  | Rotated
deriving DecidableEq

/-- `image::imageops::rotate90` (external `image` crate): rotate 90°
clockwise, so the output has the input's height as width and width as
height, and output pixel `(x, y)` is input pixel `(y, h − 1 − x)`. -/
def rotate90 {α : Type} (image : Img α) : Img α :=
  ⟨image.height, image.width, fun x y => image.pix y (image.height - 1 - x)⟩

/-- `resize_and_rotate_image` (utils.rs:89–126).  The floating-point target
height `(f64::from(nwidth) / f64::from(a) * f64::from(b)).floor() as u32`
is abstracted as an arbitrary function `heightFn nwidth a b` of the exact
three arguments the source feeds it, and the external Lanczos3 `resize` as
an arbitrary `resizeFn image nwidth nheight`; all theorems below hold for
every choice of the two. -/
def resize_and_rotate_image {α : Type} (heightFn : Nat → Nat → Nat → Nat)
    (resizeFn : Img α → Nat → Nat → Img α)
    (image : Img α) (orientation : Orientation) (final_width : Nat) : Img α :=
  let owidth := image.width
  let oheight := image.height
  let nwidth := final_width
  let nheight :=
    match orientation with
    | .Normal => heightFn nwidth owidth oheight
    | .Rotated => heightFn nwidth oheight owidth
  let image2 :=
    match orientation with
    | .Normal => image
    | .Rotated => rotate90 image
  resizeFn image2 nwidth nheight

/-- `convert_image_to_luma_u8` (utils.rs:73–87): every supported pixel
format is projected per-pixel to 8-bit luma; the per-pixel projection of
the external `ConvertBuffer` implementations is the parameter `lumaOf`. -/
def convert_image_to_luma_u8 {α : Type} (lumaOf : α → Nat) (image : Img α) : GrayImage :=
  ⟨image.width, image.height, fun x y => lumaOf (image.pix x y)⟩

/-- The image pipeline of `print_image` (printer.rs:157–188): resize and
rotate, project to luma, optionally dither, rasterize. -/
def encode_pipeline {α : Type} (heightFn : Nat → Nat → Nat → Nat)
    (resizeFn : Img α → Nat → Nat → Img α) (lumaOf : α → Nat)
    (dither : Bool) (dots : Nat) (orientation : Orientation) (image : Img α) :
    List (List Nat) :=
  let resized := resize_and_rotate_image heightFn resizeFn image orientation dots
  let gray := convert_image_to_luma_u8 lumaOf resized
  let gray2 := if dither then dither_luma8_image gray else gray
  rasterize_image_to_ql_tiff gray2

/-- C8.  For every input image, the raster lines produced by the pipeline
with orientation `Rotated` are equal, bit for bit, to the lines produced
with orientation `Normal` from the same image rotated 90° clockwise, for
the same dot-width and dither setting — and for every resampling kernel
and floating-point height computation, since on both sides the source
feeds them identical arguments. -/
theorem C8_rotation_identity {α : Type} (heightFn : Nat → Nat → Nat → Nat)
    (resizeFn : Img α → Nat → Nat → Img α) (lumaOf : α → Nat)
    (dither : Bool) (dots : Nat) (image : Img α) :
    encode_pipeline heightFn resizeFn lumaOf dither dots .Rotated image
      = encode_pipeline heightFn resizeFn lumaOf dither dots .Normal (rotate90 image) := rfl

/-! The status data model (printer/status.rs). -/

/-- `MediaType` (status.rs:10–15). -/
inductive MediaType
  | None
  | ContinuousTape
  | DieCutLabels
deriving DecidableEq

/-- `Media` (status.rs:17–22): `width` and `length` are `u8` millimetre
values (0 length means endless tape). -/
structure Media where
  media_type : MediaType
  width : Nat
  length : Nat
deriving DecidableEq

/-- `StatusType` (status.rs:34–42). -/
inductive StatusType
  | ReplyToStatusRequest
  | PrintingCompleted
  | ErrorOccurred
  | TurnedOff
  | Notification
  | PhaseChange
deriving DecidableEq

/-- `PhaseType` (status.rs:44–48). -/
inductive PhaseType
  | WaitingToReceive
  | PrintingState
deriving DecidableEq

/-- `Notification` (status.rs:50–55). -/
inductive Notification
  | NotAvailable
  | CoolingStarted
  | CoolingFinished
deriving DecidableEq

/-- `status::Response` (status.rs:57–65), the parsed 32-byte status frame. -/
structure Response where
  model : String
  status_type : StatusType
  errors : List String
  phase_type : PhaseType
  notification : Notification
  media : Media
deriving DecidableEq

/-- `constants::Label` (printer/constants.rs, not among the sources): the
fields the core uses, per spec §4.4 — `dots_printable` (a pair whose first
component is the printable dot width) and `feed_margin` (a `u8`). -/
structure Label where
  dots_printable : Nat × Nat
  feed_margin : Nat
deriving DecidableEq

/-- Modelled from the spec: the static catalogue `constants::label_data`
(printer/constants.rs is not among the sources).  Per §4.4 it is a static
partial lookup from `(width, Option length)` to a `Label`; its concrete
entries are irrelevant to the claims, so the table itself is passed around
as a value of this type. -/
def Catalogue : Type := Nat → Option Nat → Option Label

/-- `Media::to_label` (status.rs:23–32).  The source ends in
`.expect("Printer reported invalid label dimensions")`, a panic; the
`Option` result carries that partiality to the callers, which turn `none`
into `Outcome.panic`. -/
def Media.to_label (label_data : Catalogue) (m : Media) : Option Label :=
  label_data m.width (if m.length = 0 then none else some m.length)

/-! The job builder (printer/job.rs). -/

/-- `job::Page` (job.rs:16–19). -/
inductive Page
  | Starting
  | Other
deriving DecidableEq

/-- `job::Info` (job.rs:5–14).  `num_lines` is a `u32` and `cut_each` a
`u8`; both are modelled as `Nat` (`serialize` takes `num_lines` through the
`u32::to_le_bytes` modular formula). -/
structure Info where
  media : Media
  num_lines : Nat
  page : Page
  prioritize_quality : Bool
  cut_each : Nat
  auto_cut : Bool
  cut_at_end : Bool
  high_resolution : Bool

/-- `Info::new` (job.rs:22–33). -/
def Info.new (media : Media) (num_lines : Nat) : Info :=
  { media := media
    num_lines := num_lines
    page := Page.Other
    prioritize_quality := true
    cut_each := 1
    auto_cut := true
    cut_at_end := true
    high_resolution := false }

/-- `u32::to_le_bytes`: the four little-endian bytes of `n` (exact for
`n < 2^32`, which `cmd_print` checks before the cast). -/
def u32_to_le_bytes (n : Nat) : List Nat :=
  [n % 256, n / 2 ^ 8 % 256, n / 2 ^ 16 % 256, n / 2 ^ 24 % 256]

/-- `u16::to_le_bytes`: the two little-endian bytes of `n` (exact for
`n < 2^16`; the source feeds it a `u8` widened to `u16`). -/
def u16_to_le_bytes (n : Nat) : List Nat :=
  [n % 256, n / 2 ^ 8 % 256]

/-- `Info::serialize` (job.rs:34–107).  An `Except.error` models the two
panics the source can hit: `panic!("no media loaded")` for media type
`None`, and `Media::to_label`'s expect inside the margins fragment (the
media-type panic comes first in source order).  The source writes the
little-endian `num_lines` into bytes 7..11 of the print-information
fragment with `copy_from_slice`; here the fragment is assembled directly
with those bytes in place. -/
def Info.serialize (label_data : Catalogue) (i : Info) : Except String (List Nat) :=
  let mcodeE : Except String Nat :=
    match i.media.media_type with
    | MediaType.ContinuousTape => Except.ok 0x0A
    | MediaType.DieCutLabels => Except.ok 0x0B
    | MediaType.None => Except.error ("no media loaded")
  match mcodeE with
  | Except.error m => Except.error m
  | Except.ok mcode =>
    match Media.to_label label_data i.media with
    | none => Except.error ("Printer reported invalid label dimensions")
    | some lbl =>
      let MEDIA_TYPE : Nat := 0x02
      let MEDIA_WIDTH : Nat := 0x04
      let MEDIA_LENGTH : Nat := 0x08
      let PRIORITY_GIVEN_TO_PRINT_QUALITY : Nat := 0x40
      let PRINTER_RECOVERY_ALWAYS_ON : Nat := 0x80
      let q : Nat := if i.prioritize_quality then 1 else 0
      let valid_flags : Nat :=
        MEDIA_TYPE ||| MEDIA_WIDTH ||| MEDIA_LENGTH |||
          (PRIORITY_GIVEN_TO_PRINT_QUALITY &&& (q <<< 6) ||| PRINTER_RECOVERY_ALWAYS_ON)
      let print_information : List Nat :=
        [0x1B, 0x69, 0x7A, valid_flags, mcode, i.media.width, i.media.length]
          ++ u32_to_le_bytes i.num_lines
          ++ [(match i.page with | Page.Starting => 0 | Page.Other => 1), 0]
      let cut_each_page : List Nat := [0x1B, 0x69, 0x41, i.cut_each]
      let various_mode : List Nat :=
        [0x1B, 0x69, 0x4D, (if i.auto_cut then 1 else 0) <<< 6]
      let expanded_mode : List Nat :=
        [0x1B, 0x69, 0x4B,
          (if i.cut_at_end then 1 else 0) <<< 3 ||| (if i.high_resolution then 1 else 0) <<< 6]
      let margins : List Nat := [0x1B, 0x69, 0x64] ++ u16_to_le_bytes lbl.feed_margin
      Except.ok (print_information ++ cut_each_page ++ various_mode ++ expanded_mode ++ margins)

/-- C6.  For every `JobInfo` with media type `ContinuousTape` or
`DieCutLabels` (and media the catalogue resolves, without which the source
panics in the margins fragment), `serialize` returns exactly 30 bytes: the
13-byte print-information command with valid-flags
`0x02 ||| 0x04 ||| 0x08 ||| 0x80`, plus `0x40` exactly when
`prioritize_quality` is set, the media type code (0x0A continuous, 0x0B
die-cut), media width, media length, `num_lines` as four little-endian
bytes, the page byte (0 Starting, 1 Other) and a trailing zero, followed in
order by the 4-byte cut-each, 4-byte mode, 4-byte expanded-mode, and 5-byte
margins sub-commands with no padding. -/
theorem C6_serialize_layout (label_data : Catalogue) (i : Info) (lbl : Label)
    (hmt : i.media.media_type = MediaType.ContinuousTape
      ∨ i.media.media_type = MediaType.DieCutLabels)
    (hlbl : Media.to_label label_data i.media = some lbl) :
    Info.serialize label_data i = Except.ok (
      [0x1B, 0x69, 0x7A,
        0x02 ||| 0x04 ||| 0x08 ||| (if i.prioritize_quality then 0x40 else 0) ||| 0x80,
        (if i.media.media_type = MediaType.ContinuousTape then 0x0A else 0x0B),
        i.media.width, i.media.length,
        i.num_lines % 256, i.num_lines / 2 ^ 8 % 256,
        i.num_lines / 2 ^ 16 % 256, i.num_lines / 2 ^ 24 % 256,
        (if i.page = Page.Starting then 0 else 1), 0]
      ++ [0x1B, 0x69, 0x41, i.cut_each]
      ++ [0x1B, 0x69, 0x4D, if i.auto_cut then 0x40 else 0]
      ++ [0x1B, 0x69, 0x4B,
          (if i.cut_at_end then 8 else 0) + (if i.high_resolution then 0x40 else 0)]
      ++ [0x1B, 0x69, 0x64, lbl.feed_margin % 256, lbl.feed_margin / 2 ^ 8 % 256])
    ∧ ([0x1B, 0x69, 0x7A,
        0x02 ||| 0x04 ||| 0x08 ||| (if i.prioritize_quality then 0x40 else 0) ||| 0x80,
        (if i.media.media_type = MediaType.ContinuousTape then 0x0A else 0x0B),
        i.media.width, i.media.length,
        i.num_lines % 256, i.num_lines / 2 ^ 8 % 256,
        i.num_lines / 2 ^ 16 % 256, i.num_lines / 2 ^ 24 % 256,
        (if i.page = Page.Starting then 0 else 1), 0]
      ++ [0x1B, 0x69, 0x41, i.cut_each]
      ++ [0x1B, 0x69, 0x4D, if i.auto_cut then 0x40 else 0]
      ++ [0x1B, 0x69, 0x4B,
          (if i.cut_at_end then 8 else 0) + (if i.high_resolution then 0x40 else 0)]
      ++ [0x1B, 0x69, 0x64, lbl.feed_margin % 256,
          lbl.feed_margin / 2 ^ 8 % 256] : List Nat).length = 13 + 4 + 4 + 4 + 5 := by
  constructor
  · unfold Info.serialize
    rcases hmt with hmt | hmt <;>
      simp only [hmt, hlbl, u32_to_le_bytes, u16_to_le_bytes] <;>
      rcases i with ⟨m, n, pg, pq, ce, ac, cae, hr⟩ <;>
      cases pq <;> cases pg <;> cases ac <;> cases cae <;> cases hr <;>
      simp
  · simp

/-- Concrete catalogue fixture for witnesses: 62 mm endless tape resolves
to a label with 720 printable dots and feed margin 35; every other media is
unknown. -/
def label62 : Label := ⟨(720, 0), 35⟩

/-- Fixture catalogue containing only the 62 mm endless entry. -/
def cat62 : Catalogue := fun w len =>
  if w = 62 ∧ len = Option.none then some label62 else none

/-- Fixture media: 62 mm endless continuous tape, as an 800-series printer
reports it. -/
def media62 : Media := ⟨MediaType.ContinuousTape, 62, 0⟩

/-- Witness for C6: serializing the default job for 62 mm endless media
with `num_lines = 2` yields exactly the expected 30 bytes. -/
theorem C6_serialize_layout_witness :
    (media62.media_type = MediaType.ContinuousTape
      ∨ media62.media_type = MediaType.DieCutLabels)
  ∧ Media.to_label cat62 media62 = some label62
  ∧ Info.serialize cat62 (Info.new media62 2) = Except.ok
      [0x1B, 0x69, 0x7A, 0xCE, 0x0A, 62, 0, 2, 0, 0, 0, 1, 0,
       0x1B, 0x69, 0x41, 1,
       0x1B, 0x69, 0x4D, 0x40,
       0x1B, 0x69, 0x4B, 8,
       0x1B, 0x69, 0x64, 35, 0] := by
  refine ⟨Or.inl rfl, rfl, ?_⟩
  rw [(C6_serialize_layout cat62 (Info.new media62 2) label62 (Or.inl rfl) rfl).1]
  rfl

/-! The print state machine (printer.rs). -/

/-- `State` (printer.rs:73–80). -/
inductive State
  | Waiting
  | PrintingStarted
  | PrintingFinished
  | Cooling
  | Errored
deriving DecidableEq

/-- `ThermalPrinter::read_loop` (printer.rs:328–394).  `frames` scripts the
successive results of `self.read()`: `none` is a read error (the
`let Ok(status) = self.read() else` branch), `some status` a parsed frame.
The function returns the state in which the Rust loop returns, together
with the frames it did not consume.  An exhausted script leaves the loop
with the current state (the theorems below only run it on scripts long
enough to reach a `return`). -/
def read_loop : State → List (Option Response) → State × List (Option Response)
  | state, [] => (state, [])
  | state, f :: rest =>
    match f with
    | none => (State.Errored, rest)
    | some status =>
      match state with
      | State.Waiting =>
        match status.phase_type with
        | PhaseType.PrintingState => read_loop State.PrintingStarted rest
        | _ => (State.Errored, rest)
      | State.PrintingStarted =>
        match status.status_type with
        | StatusType.PrintingCompleted => read_loop State.PrintingFinished rest
        | StatusType.Notification =>
          match status.notification with
          | Notification.CoolingStarted => read_loop State.Cooling rest
          | _ => (State.Errored, rest)
        | _ => (State.Errored, rest)
      | State.PrintingFinished =>
        match status.status_type with
        | StatusType.PhaseChange => (State.Waiting, rest)
        | _ => (State.Errored, rest)
      | State.Cooling =>
        match status.status_type with
        | StatusType.Notification =>
          match status.notification with
          | Notification.CoolingFinished => (State.PrintingStarted, rest)
          | _ => (State.Errored, rest)
        | _ => (State.Errored, rest)
      | State.Errored => (State.Errored, rest)

/-- A frame whose status type is a plain reply (not a phase change) but
whose phase field reads `PrintingState` — e.g. the reply to a status
request issued while the device is printing. -/
def frame_reply_printing : Response :=
  ⟨"QL-800", StatusType.ReplyToStatusRequest, [], PhaseType.PrintingState,
    Notification.NotAvailable, media62⟩

/-- C4 counterexample: in state `Waiting` the source inspects only
`status.phase_type` (printer.rs:336), so a frame that is *not* a
`PhaseChange` — here a plain `ReplyToStatusRequest` whose phase field is
`PrintingState` — also moves the machine to `PrintingStarted` and
continues, where the claim requires the transition to `Errored` and
return. -/
theorem C4_waiting_only_checks_phase_cex :
    read_loop State.Waiting [some frame_reply_printing]
        = (State.PrintingStarted, [])
    ∧ frame_reply_printing.status_type ≠ StatusType.PhaseChange := by
  constructor
  · rfl
  · intro h
    exact absurd h (by decide)

/-- C4 as amended: in the read-loop, from state `Waiting`, a received frame
causes the transition to `PrintingStarted` (and the loop continues) if and
only if its *phase type* is `PrintingState`, regardless of its status type;
every frame whose phase type is `WaitingToReceive` causes the transition to
`Errored` and the loop returns. -/
theorem C4_waiting_transition_amended (f : Response) (rest : List (Option Response)) :
    read_loop State.Waiting (some f :: rest)
      = (match f.phase_type with
         | PhaseType.PrintingState => read_loop State.PrintingStarted rest
         | PhaseType.WaitingToReceive => (State.Errored, rest)) := by
  rcases f with ⟨m, st, e, pt, nt, md⟩
  cases pt <;> rfl

/-! The print loop (printer.rs:246–323). -/

/-- `PrinterError` (printer.rs:22–30): `Usb` carries the transport error
kind, `Device` and `Printer` a message.  Messages the source builds with
`format!` around a debug payload are modelled by their fixed prefix. -/
inductive PErr
  | Usb (kind : String)
  | Device (msg : String)
  | Printer (msg : String)
deriving DecidableEq

/-- Result of a driver call, with a Rust `panic!` / `.expect(..)` abort
kept apart from a returned `Err`. -/
inductive Outcome (α : Type)
  | ok (a : α)
  | err (e : PErr)
  | panic (msg : String)
deriving DecidableEq

/-- One byte string successfully handed to the bulk-out endpoint by the
copy loop: a job header (`cmd_control_codes`), a raster-line command
(`67 00 5A` plus 90 payload bytes), or a terminator byte. -/
inductive Event
  | controlCodes (bytes : List Nat)
  | raster (bytes : List Nat)
  | terminator (b : Nat)
deriving DecidableEq

/-- Pop the scripted outcome of the next fallible `write_with_timeout`
call: `false` is a timeout, `true` success; an exhausted script means
every further write succeeds. -/
def takeWrite : List Bool → Bool × List Bool
  | [] => (true, [])
  | b :: rest => (b, rest)

/-- The raster streaming loop of `cmd_print` (printer.rs:275–298): the
`for line in lines.iter()` with the labelled `'line: loop`.  A write that
times out transmits nothing; on timeout the source runs `read_loop` and
requires state `PrintingStarted` (the cooling path), after which the
unconditional `break 'line` leaves the labelled loop, so the timed-out
line is *not* written again (see C2).  Returns the final state, the
remaining write and frame scripts, and the accumulated
successfully-written events. -/
def print_lines (lines : List (List Nat)) (state : State) (wr : List Bool)
    (frames : List (Option Response)) (acc : List Event) :
    Outcome (State × List Bool × List (Option Response) × List Event) :=
  match lines with
  | [] => Outcome.ok (state, wr, frames, acc)
  | line :: rest =>
    let raster_command := [0x67, 0x00, 90] ++ line
    match state with
    | State.Waiting | State.PrintingStarted =>
      match takeWrite wr with
      | (true, wr2) =>
        print_lines rest state wr2 frames (acc ++ [Event.raster raster_command])
      | (false, wr2) =>
        match read_loop state frames with
        | (State.PrintingStarted, frames2) =>
          print_lines rest State.PrintingStarted wr2 frames2 acc
        | (_, _) =>
          Outcome.err (PErr.Printer ("unexpected state during cooldown"))
    | _ => Outcome.err (PErr.Printer ("unexpected status at start of line print"))

/-- The copy loop of `cmd_print` (printer.rs:259–321), entered with
`state = State::Waiting` and `printed_copies = 0`.  The Rust `loop`
increments `printed_copies` at the end of each pass and exits once
`printed_copies >= copies`, so it makes at most `copies + 1` passes;
`passes` is structural fuel, `copies + 1` at entry, and the exhausted-fuel
branch is unreachable.  Each pass: serialize and write the job header
(`cmd_control_codes`, printer.rs:239–243 and 264–272, whose
`lines.len().try_into().expect(..)` panics above `u32::MAX`), stream the
raster lines, write the terminator — `0x0C` (print without feed) when
`copies > printed_copies + 1`, else `0x1A` (print with feed) — then run
the read loop and require state `Waiting` (the verification step). -/
def print_copy_go (label_data : Catalogue) (media : Media) (lines : List (List Nat))
    (copies cut_each : Nat) :
    Nat → Nat → State → List Bool → List (Option Response) → List Event →
    Outcome (List Event)
  | 0, _, _, _, _, _ => Outcome.panic ("unreachable: loop fuel exhausted")
  | _passes + 1, printed_copies, state, wr, frames, acc =>
    if lines.length ≥ 2 ^ 32 then
      Outcome.panic ("cannot cast result from lines.len() into u32")
    else
      match Info.serialize label_data
          { Info.new media lines.length with cut_each := cut_each } with
      | Except.error msg => Outcome.panic msg
      | Except.ok header =>
        match takeWrite wr with
        | (false, _) => Outcome.err (PErr.Usb ("timeout"))
        | (true, wr2) =>
          match print_lines lines state wr2 frames (acc ++ [Event.controlCodes header]) with
          | Outcome.err e => Outcome.err e
          | Outcome.panic m => Outcome.panic m
          | Outcome.ok (state2, wr3, frames2, acc2) =>
            let terminator : Nat := if copies > printed_copies + 1 then 0x0C else 0x1A
            match takeWrite wr3 with
            | (false, _) => Outcome.err (PErr.Usb ("timeout"))
            | (true, wr4) =>
              let acc3 := acc2 ++ [Event.terminator terminator]
              match read_loop state2 frames2 with
              | (State.Waiting, frames3) =>
                if printed_copies + 1 ≥ copies then Outcome.ok acc3
                else print_copy_go label_data media lines copies cut_each
                  _passes (printed_copies + 1) State.Waiting wr4 frames3 acc3
              | (_, _) =>
                Outcome.err (PErr.Printer ("unexpected state during verification"))

/-- `ThermalPrinter::cmd_print` (printer.rs:246–323).  The transport
preamble — `cmd_invalidate` (400 zero bytes, retried while Busy),
`cmd_initialize` and `cmd_status_request` (printer.rs:247–254) — is
abstracted into the `status` argument, the response the status request
returned; then the phase check (printer.rs:255–257) and the copy loop.
`wr` scripts the outcome of every fallible `write_with_timeout` of the
loop in call order (header, raster lines, terminator), `frames` scripts
the `read()` results `read_loop` consumes; on success the result is the
list of byte strings successfully transmitted. -/
def cmd_print (label_data : Catalogue) (status : Response) (lines : List (List Nat))
    (copies cut_each : Nat) (wr : List Bool) (frames : List (Option Response)) :
    Outcome (List Event) :=
  match status.phase_type with
  | PhaseType.WaitingToReceive =>
    print_copy_go label_data status.media lines copies cut_each
      (copies + 1) 0 State.Waiting wr frames []
  | PhaseType.PrintingState => Outcome.err (PErr.Printer ("printer in invalid phase"))

/-! Frame and script fixtures for the print-loop claims. -/

/-- Status-request reply fixture: idle printer, 62 mm endless tape. -/
def status_waiting : Response :=
  ⟨"QL-800", StatusType.ReplyToStatusRequest, [], PhaseType.WaitingToReceive,
    Notification.NotAvailable, media62⟩

/-- Phase-change-to-printing frame. -/
def frame_phase : Response :=
  ⟨"QL-800", StatusType.PhaseChange, [], PhaseType.PrintingState,
    Notification.NotAvailable, media62⟩

/-- Printing-completed frame. -/
def frame_done : Response :=
  ⟨"QL-800", StatusType.PrintingCompleted, [], PhaseType.PrintingState,
    Notification.NotAvailable, media62⟩

/-- Phase-change-back-to-waiting frame. -/
def frame_back : Response :=
  ⟨"QL-800", StatusType.PhaseChange, [], PhaseType.WaitingToReceive,
    Notification.NotAvailable, media62⟩

/-- Cooling-started notification frame. -/
def frame_cool_start : Response :=
  ⟨"QL-800", StatusType.Notification, [], PhaseType.PrintingState,
    Notification.CoolingStarted, media62⟩

/-- Cooling-finished notification frame. -/
def frame_cool_end : Response :=
  ⟨"QL-800", StatusType.Notification, [], PhaseType.PrintingState,
    Notification.CoolingFinished, media62⟩

/-- The frames of one uneventful printed copy: phase change to printing,
printing completed, phase change back to waiting. -/
def happy_frames : List (Option Response) :=
  [some frame_phase, some frame_done, some frame_back]

/-- `l` concatenated with itself `n` times. -/
def repeat_list {α : Type} (l : List α) : Nat → List α
  | 0 => []
  | n + 1 => l ++ repeat_list l n

/-- An all-white raster line. -/
def lineA : List Nat := List.replicate 90 0

/-- An all-black raster line. -/
def lineB : List Nat := List.replicate 90 1

/-- The serialized default job header for 62 mm endless media with one
raster line. -/
def hdr62_1 : List Nat :=
  [0x1B, 0x69, 0x7A, 0xCE, 0x0A, 62, 0, 1, 0, 0, 0, 1, 0,
   0x1B, 0x69, 0x41, 1, 0x1B, 0x69, 0x4D, 0x40, 0x1B, 0x69, 0x4B, 8,
   0x1B, 0x69, 0x64, 35, 0]

/-- The serialized default job header for 62 mm endless media with two
raster lines. -/
def hdr62_2 : List Nat :=
  [0x1B, 0x69, 0x7A, 0xCE, 0x0A, 62, 0, 2, 0, 0, 0, 1, 0,
   0x1B, 0x69, 0x41, 1, 0x1B, 0x69, 0x4D, 0x40, 0x1B, 0x69, 0x4B, 8,
   0x1B, 0x69, 0x64, 35, 0]

/-- C2 (code bug).  A raster-line write that times out is never retried:
the labelled `'line: loop` (printer.rs:278–297) ends in an unconditional
`break 'line`, so after the cooling read-loop (CoolingStarted then
CoolingFinished, ending in `PrintingStarted`) execution falls through to
the next line, and the timed-out line's raster data is transmitted zero
times — while `cmd_print` still returns Ok.  Concretely: a two-line
one-copy job whose second line write times out once transmits the header,
line A and the final terminator, and line B not at all. -/
theorem C2_cooling_timeout_drops_line :
    cmd_print cat62 status_waiting [lineA, lineB] 1 1 [true, true, false]
        [some frame_phase, some frame_cool_start, some frame_cool_end,
         some frame_done, some frame_back]
      = Outcome.ok
          [Event.controlCodes hdr62_2, Event.raster ([0x67, 0x00, 90] ++ lineA),
           Event.terminator 0x1A]
    ∧ List.count (Event.raster ([0x67, 0x00, 90] ++ lineB))
        [Event.controlCodes hdr62_2, Event.raster ([0x67, 0x00, 90] ++ lineA),
         Event.terminator 0x1A] = 0 := by
  constructor
  · rfl
  · decide

/-- With an empty (all-success) write script and starting state `Waiting`,
the streaming loop transmits every line once, in order, and changes
nothing else. -/
theorem print_lines_all_ok (frames : List (Option Response)) :
    ∀ (lines : List (List Nat)) (acc : List Event),
    print_lines lines State.Waiting [] frames acc
      = Outcome.ok (State.Waiting, [], frames,
          acc ++ lines.map (fun l => Event.raster ([0x67, 0x00, 90] ++ l)))
  | [], acc => by simp [print_lines]
  | line :: rest, acc => by
    show print_lines rest State.Waiting [] frames
        (acc ++ [Event.raster ([0x67, 0x00, 90] ++ line)]) = _
    rw [print_lines_all_ok frames rest (acc ++ [Event.raster ([0x67, 0x00, 90] ++ line)])]
    simp

/-- The read loop consumes one happy-copy frame triple from `Waiting` back
to `Waiting`. -/
theorem read_loop_happy (rest : List (Option Response)) :
    read_loop State.Waiting (happy_frames ++ rest) = (State.Waiting, rest) := rfl

theorem range_succ_flatMap {α : Type} (m : Nat) (g : Nat → List α) :
    (List.range (m + 1)).flatMap g = g 0 ++ (List.range m).flatMap (fun k => g (k + 1)) := by
  rw [List.range_succ_eq_map, List.flatMap_cons, List.flatMap_map]

/-- Everything the copy loop transmits for one copy: the job header, every
raster line in order, and the terminator byte `t`. -/
def copy_block (hdr : List Nat) (lines : List (List Nat)) (t : Nat) : List Event :=
  Event.controlCodes hdr ::
    (lines.map (fun l => Event.raster ([0x67, 0x00, 90] ++ l)) ++ [Event.terminator t])

/-- Happy-path run of the copy loop from `printed_copies = p`: with
all-success writes and one happy frame triple per remaining copy, each
remaining copy `p + k` transmits its block, with terminator `0x0C` while
further copies remain and `0x1A` for the last one. -/
theorem print_copy_go_happy (label_data : Catalogue) (media : Media)
    (lines : List (List Nat)) (n cut : Nat) (hdr : List Nat)
    (hser : Info.serialize label_data { Info.new media lines.length with cut_each := cut }
      = Except.ok hdr)
    (hlen : lines.length < 2 ^ 32) :
    ∀ (f p : Nat) (acc : List Event), p < n → n ≤ p + f →
    print_copy_go label_data media lines n cut f p State.Waiting []
        (repeat_list happy_frames (n - p)) acc
      = Outcome.ok (acc ++ (List.range (n - p)).flatMap (fun k =>
          copy_block hdr lines (if p + k + 1 < n then 0x0C else 0x1A)))
  | 0, p, acc, hp, hf => by omega
  | f + 1, p, acc, hp, hf => by
    obtain ⟨m, hm⟩ : ∃ m, n - p = m + 1 := ⟨n - p - 1, by omega⟩
    rw [hm]
    simp only [print_copy_go, repeat_list]
    rw [if_neg (by omega : ¬ lines.length ≥ 2 ^ 32)]
    simp only [hser, takeWrite, print_lines_all_ok, read_loop_happy]
    by_cases hstop : p + 1 ≥ n
    · rw [if_pos hstop]
      have hm0 : m = 0 := by omega
      subst hm0
      have hterm : ¬ n > p + 1 := by omega
      rw [if_neg hterm]
      rw [range_succ_flatMap]
      have hterm2 : ¬ p + 0 + 1 < n := by omega
      simp [copy_block, hterm2]
    · rw [if_neg hstop]
      have hmn : m = n - (p + 1) := by omega
      rw [hmn]
      rw [print_copy_go_happy label_data media lines n cut hdr hser hlen f (p + 1)
        _ (by omega) (by omega)]
      have hterm : n > p + 1 := by omega
      rw [if_pos hterm]
      rw [range_succ_flatMap]
      have hterm0 : p + 0 + 1 < n := by omega
      rw [if_pos hterm0]
      have harg : ∀ k : Nat, (if p + (k + 1) + 1 < n then (0x0C : Nat) else 0x1A)
          = (if p + 1 + k + 1 < n then 0x0C else 0x1A) := by
        intro k
        exact if_congr (by omega) rfl rfl
      simp [copy_block, harg, List.append_assoc]

/-- C5.  For every print job of `n ≥ 1` copies over an idle printer, with
no write timeouts and the uneventful frame triple per copy: the transmitted
events are, for each copy `k + 1` (`k = 0 .. n−1`), the job header, the
raster lines, and then a single terminator byte which is `0x0C` (print
without feed) when `k + 1 < n` and `0x1A` (print with feed) when
`k + 1 = n`; in particular a one-copy job ends with `0x1A` only. -/
theorem C5_terminator_bytes (label_data : Catalogue) (status : Response)
    (lines : List (List Nat)) (n : Nat) (hdr : List Nat)
    (hphase : status.phase_type = PhaseType.WaitingToReceive)
    (hn : 1 ≤ n) (hlen : lines.length < 2 ^ 32)
    (hser : Info.serialize label_data
      { Info.new status.media lines.length with cut_each := 1 } = Except.ok hdr) :
    cmd_print label_data status lines n 1 [] (repeat_list happy_frames n)
      = Outcome.ok ((List.range n).flatMap (fun k =>
          copy_block hdr lines (if k + 1 < n then 0x0C else 0x1A))) := by
  unfold cmd_print
  rw [hphase]
  have h := print_copy_go_happy label_data status.media lines n 1 hdr hser hlen
    (n + 1) 0 [] (by omega) (by omega)
  rw [Nat.sub_zero] at h
  simpa using h

/-- Witness for C5: two copies of a one-line job on 62 mm endless media
transmit header, line, `0x0C`, then header, line, `0x1A`. -/
theorem C5_terminator_bytes_witness :
    status_waiting.phase_type = PhaseType.WaitingToReceive
  ∧ (1 : Nat) ≤ 2
  ∧ ([lineA] : List (List Nat)).length < 2 ^ 32
  ∧ Info.serialize cat62 { Info.new status_waiting.media ([lineA] : List (List Nat)).length
      with cut_each := 1 } = Except.ok hdr62_1
  ∧ cmd_print cat62 status_waiting [lineA] 2 1 [] (repeat_list happy_frames 2)
      = Outcome.ok ((List.range 2).flatMap (fun k =>
          copy_block hdr62_1 [lineA] (if k + 1 < 2 then 0x0C else 0x1A))) := by
  refine ⟨rfl, by decide, by decide, rfl, ?_⟩
  exact C5_terminator_bytes cat62 status_waiting [lineA] 2 hdr62_1 rfl
    (by decide) (by decide) rfl

/-- C9.  Calling `cmd_print` with `copies = 0` behaves exactly like
`copies = 1`, on every script: the `loop` body runs before the exit test
`printed_copies >= copies`, which both `0` and `1` first satisfy after one
pass, and the terminator test `copies > printed_copies + 1` is false for
both — so one header is written, every raster line is sent once, the
with-feed terminator `0x1A` is written, and the call returns successfully
after one printed copy (shown concretely in the second conjunct). -/
theorem C9_zero_copies_like_one :
    (∀ (label_data : Catalogue) (status : Response) (lines : List (List Nat))
        (cut_each : Nat) (wr : List Bool) (frames : List (Option Response)),
      cmd_print label_data status lines 0 cut_each wr frames
        = cmd_print label_data status lines 1 cut_each wr frames)
  ∧ cmd_print cat62 status_waiting [lineA] 0 1 [] happy_frames
      = Outcome.ok [Event.controlCodes hdr62_1,
          Event.raster ([0x67, 0x00, 90] ++ lineA), Event.terminator 0x1A] := by
  constructor
  · intro label_data status lines cut_each wr frames
    unfold cmd_print
    rcases status with ⟨model, st, errs, pt, nt, md⟩
    cases pt
    · rfl
    · rfl
  · rfl

/-! The public driver API (printer.rs:157–188 and 396–409). -/

/-- `ThermalPrinter::current_label` (printer.rs:396–409).  `get_status` is
abstracted into the `media` argument (the media field of the response it
returned); the source looks the media up in the catalogue directly —
building the optional length with `match media.length { 0 => None, _ =>
Some(..) }` — and turns a miss into
`PrinterError::Printer("Unknown media loaded in printer")` via `ok_or`. -/
def current_label (label_data : Catalogue) (media : Media) : Except PErr Label :=
  match label_data media.width
      (match media.length with | 0 => none | _ => some media.length) with
  | some l => Except.ok l
  | none => Except.error (PErr.Printer ("Unknown media loaded in printer"))

/-- `ThermalPrinter::print_image` (printer.rs:157–188).  The `get_status`
call at the top and the final `cmd_status_request` are abstracted: the
`status` argument is the response `get_status` returned, and the result
carries `cmd_print`'s transmitted events rather than the final status.  In
between is the source pipeline: `resize_and_rotate_image` sized by
`status.media.to_label().dots_printable.0` — where `Media::to_label`'s
`.expect(..)` panics if the catalogue cannot resolve the media — then luma
conversion, optional dithering, rasterization, and
`cmd_print(lines, copies, 1)`. -/
def print_image {α : Type} (label_data : Catalogue)
    (heightFn : Nat → Nat → Nat → Nat) (resizeFn : Img α → Nat → Nat → Img α)
    (lumaOf : α → Nat) (status : Response) (image : Img α)
    (orientation : Orientation) (dither : Bool) (copies : Nat)
    (wr : List Bool) (frames : List (Option Response)) : Outcome (List Event) :=
  match Media.to_label label_data status.media with
  | none => Outcome.panic ("Printer reported invalid label dimensions")
  | some label =>
    cmd_print label_data status
      (encode_pipeline heightFn resizeFn lumaOf dither label.dots_printable.1
        orientation image)
      copies 1 wr frames

/-- The empty catalogue: no media resolves. -/
def cat_empty : Catalogue := fun _ _ => none

/-- Trivial stand-in for the floating-point height computation. -/
def hFn0 : Nat → Nat → Nat → Nat := fun _ _ _ => 0

/-- Trivial stand-in for the Lanczos3 resampler. -/
def rFn0 : Img Nat → Nat → Nat → Img Nat := fun i _ _ => i

/-- One-pixel image fixture. -/
def img0 : Img Nat := ⟨1, 1, fun _ _ => 0⟩

/-- C3 counterexample: for a status response whose media the catalogue does
not resolve, `print_image` does *not* return an `UnknownMedia`-style error
— it panics through `Media::to_label`'s `.expect(..)` (status.rs:30): at
this concrete unresolvable media the outcome is `Outcome.panic`, and in
particular not the Unknown-media `Err` that `current_label` produces. -/
theorem C3_print_image_panics_cex :
    print_image cat_empty hFn0 rFn0 (fun v => v) status_waiting img0
        Orientation.Normal false 1 [] []
      = Outcome.panic ("Printer reported invalid label dimensions")
    ∧ print_image cat_empty hFn0 rFn0 (fun v => v) status_waiting img0
        Orientation.Normal false 1 [] []
      ≠ Outcome.err (PErr.Printer ("Unknown media loaded in printer")) := by
  constructor
  · rfl
  · decide

/-- C3 as amended: for every status response whose reported (media width,
optional media length) pair does not resolve in the label catalogue,
`current_label` returns the Unknown-media `Printer` error — but a print
job does not fail with an error: `print_image` panics (aborts) with
`Media::to_label`'s expect message instead of returning one. -/
theorem C3_unknown_media_amended (label_data : Catalogue) (media : Media)
    (h : Media.to_label label_data media = none) :
    current_label label_data media
      = Except.error (PErr.Printer ("Unknown media loaded in printer"))
    ∧ ∀ (α : Type) (heightFn : Nat → Nat → Nat → Nat)
        (resizeFn : Img α → Nat → Nat → Img α) (lumaOf : α → Nat)
        (model : String) (st : StatusType) (errs : List String) (ph : PhaseType)
        (nt : Notification) (image : Img α) (orientation : Orientation)
        (dither : Bool) (copies : Nat) (wr : List Bool)
        (frames : List (Option Response)),
      print_image label_data heightFn resizeFn lumaOf
          ⟨model, st, errs, ph, nt, media⟩ image orientation dither copies wr frames
        = Outcome.panic ("Printer reported invalid label dimensions") := by
  constructor
  · rcases media with ⟨mt, w, len⟩
    unfold Media.to_label at h
    unfold current_label
    dsimp only at h ⊢
    cases len with
    | zero =>
      rw [if_pos rfl] at h
      rw [h]
    | succ k =>
      rw [if_neg (Nat.succ_ne_zero k)] at h
      show (match label_data w (some (k + 1)) with
        | some l => Except.ok l
        | none => Except.error (PErr.Printer ("Unknown media loaded in printer")))
        = Except.error (PErr.Printer ("Unknown media loaded in printer"))
      rw [h]
  · intro α heightFn resizeFn lumaOf model st errs ph nt image orientation dither copies wr frames
    unfold print_image
    simp only [h]

/-- Witness for C3 (amended) at the empty catalogue and 62 mm media. -/
theorem C3_unknown_media_amended_witness :
    Media.to_label cat_empty media62 = none
  ∧ current_label cat_empty media62
      = Except.error (PErr.Printer ("Unknown media loaded in printer"))
  ∧ print_image cat_empty hFn0 rFn0 (fun v => v)
      ⟨"QL-800", StatusType.ReplyToStatusRequest, [], PhaseType.WaitingToReceive,
        Notification.NotAvailable, media62⟩ img0 Orientation.Normal false 1 [] []
      = Outcome.panic ("Printer reported invalid label dimensions") := by
  refine ⟨rfl, (C3_unknown_media_amended cat_empty media62 rfl).1,
    (C3_unknown_media_amended cat_empty media62 rfl).2 Nat hFn0 rFn0 (fun v => v)
      "QL-800" StatusType.ReplyToStatusRequest [] PhaseType.WaitingToReceive
      Notification.NotAvailable img0 Orientation.Normal false 1 [] []⟩

/-- Witness for C7 (amended) at luma 200: quantized white, and not black
since 200 is not below 127. -/
theorem C7_threshold_amended_witness :
    (dither_luma8_image ⟨1, 1, fun _ _ => 200⟩).pix 0 0 = (if 200 < 127 then 0 else 255)
  ∧ (BlackAndWhite.map_color 200 = 0 ↔ 200 < 127) :=
  C7_threshold_amended 200

/-- Witness for C4 (amended) at the phase-change frame: from `Waiting` it
moves the machine to `PrintingStarted`. -/
theorem C4_waiting_transition_amended_witness :
    read_loop State.Waiting [some frame_phase] = (State.PrintingStarted, []) := by
  rw [C4_waiting_transition_amended frame_phase []]
  rfl

/-- Witness for C8 at a concrete image and concrete stand-ins for the
external resampler and height computation. -/
theorem C8_rotation_identity_witness :
    encode_pipeline hFn0 rFn0 (fun v => v) false 10 Orientation.Rotated img0
      = encode_pipeline hFn0 rFn0 (fun v => v) false 10 Orientation.Normal (rotate90 img0) :=
  C8_rotation_identity hFn0 rFn0 (fun v => v) false 10 img0

/-- Witness for C9 at a concrete script: zero copies and one copy produce
the same outcome. -/
theorem C9_zero_copies_like_one_witness :
    cmd_print cat62 status_waiting [lineA] 0 1 [] happy_frames
      = cmd_print cat62 status_waiting [lineA] 1 1 [] happy_frames :=
  C9_zero_copies_like_one.1 cat62 status_waiting [lineA] 1 [] happy_frames

end BrotherQL
